import Mathlib

/-!
Shallow embedding of the s2n-quic TLS session adapter
(`quic/s2n-quic-tls/src/session.rs`).

The `Session` type, its constructor `Session.new` and its handshake-advance
operation `Session.poll` are translated directly from the Rust source.  The
external TLS engine (the s2n connection handle), the callback adapter's
result, and the QUIC polling context are external collaborators whose
behaviour during one poll is supplied explicitly as data (`EngineStep`,
`CtxStep`): the embedding quantifies over every behaviour those
collaborators may exhibit.  Calls into the connection handle are recorded in
a trace so that ordering properties can be stated.
-/

instance {ε α : Type} [DecidableEq ε] [DecidableEq α] : DecidableEq (Except ε α) :=
  fun a b =>
    match a, b with
    | .ok x, .ok y =>
      if h : x = y then .isTrue (by rw [h])
      else .isFalse (by intro hc; cases hc; exact h rfl)
    | .error x, .error y =>
      if h : x = y then .isTrue (by rw [h])
      else .isFalse (by intro hc; cases hc; exact h rfl)
    | .ok _, .error _ => .isFalse (by intro hc; cases hc)
    | .error _, .ok _ => .isFalse (by intro hc; cases hc)

/-- `endpoint::Type` from s2n-quic-core: the role of this endpoint. -/
inductive EndpointType
  | Server
  | Client
deriving DecidableEq

/-- `s2n_mode` from the external engine's FFI. -/
inductive S2nMode
  | SERVER
  | CLIENT
deriving DecidableEq

/-- `s2n_blinding` from the external engine's FFI. -/
inductive Blinding
  | SELF_SERVICE_BLINDING
  | BUILT_IN_BLINDING
deriving DecidableEq

/-- An error value of the external engine (`s2n_tls::raw::error::Error`).
`id` distinguishes error values; `alert` is what the source reads through
`Error::alert()`. -/
structure S2nError where
  id : Nat
  alert : Option Nat
deriving DecidableEq

/-- Modelled from the spec: `CryptoError` of s2n-quic-core (not under `src/`)
is a cryptographic error value carrying an alert code. -/
structure CryptoError where
  code : Nat
deriving DecidableEq

/-- Modelled from the spec: `CryptoError::new(code)` builds the error carrying
that alert code. -/
def CryptoError.new (code : Nat) : CryptoError := ⟨code⟩

/-- Modelled from the spec: the fixed generic handshake-failure error
(`CryptoError::HANDSHAKE_FAILURE`; TLS alert code 40). -/
def CryptoError.HANDSHAKE_FAILURE : CryptoError := ⟨40⟩

/-- Modelled from the spec: `transport::Error` of s2n-quic-core (not under
`src/`), the transport's generic error representation.  A crypto error and an
engine error each convert into it (the `.into()` and `?` conversions used by
`Session::poll`); `generic` stands for any other transport error a context
callback may return. -/
inductive TransportError
  | crypto (e : CryptoError)
  | s2n (e : S2nError)
  | generic (code : Nat)
deriving DecidableEq

/-- `core::task::Poll`. -/
inductive HsPoll (α : Type)
  | ready (a : α)
  | pending
deriving DecidableEq

/-- The external engine's per-handshake connection handle, modelled by the
configuration state the source installs on it. -/
structure Connection where
  mode : S2nMode
  config : Option Nat
  quicEnabled : Bool
  transportParams : Option (List Nat)
  blinding : Option Blinding
deriving DecidableEq

/-- `Connection::new(mode)`: a fresh handle in the given mode with nothing
configured yet. -/
def Connection.new (mode : S2nMode) : Connection :=
  { mode := mode, config := none, quicEnabled := false,
    transportParams := none, blinding := none }

/-- The `Session` struct from `session.rs`.  `state` is the callback
adapter's persistent state (`callback::State`, an external collaborator whose
contents no claim inspects, carried as `Unit`); `config_resolver` is the
inert deferred-configuration hook, carried as an opaque token. -/
structure Session where
  endpoint : EndpointType
  connection : Connection
  state : Unit
  handshake_complete : Bool
  send_buffer : List Nat
  config_resolver : Option Nat
deriving DecidableEq

/-- The mode `Session::new` selects for each role
(`match endpoint { Server => SERVER, Client => CLIENT }`). -/
def S2nMode.ofEndpoint : EndpointType → S2nMode
  | .Server => .SERVER
  | .Client => .CLIENT

/-- The engine's verdict on each fallible setup call made by `Session::new`,
supplied externally: the engine may accept or reject each step. -/
structure ConnSetup where
  setConfigResult : Except S2nError Unit
  enableQuicResult : Except S2nError Unit
  setParamsResult : Except S2nError Unit
  setBlindingResult : Except S2nError Unit
deriving DecidableEq

/-- One call made on the connection handle during construction. -/
inductive SetupEvent
  | create (m : S2nMode)
  | setConfig
  | enableQuic
  | setParams
  | setBlinding (b : Blinding)
deriving DecidableEq

/-- The first error among the setup verdicts, in the order the source makes
the calls. -/
def ConnSetup.firstError (s : ConnSetup) : Option S2nError :=
  match s.setConfigResult with
  | .error e => some e
  | .ok _ =>
    match s.enableQuicResult with
    | .error e => some e
    | .ok _ =>
      match s.setParamsResult with
      | .error e => some e
      | .ok _ =>
        match s.setBlindingResult with
        | .error e => some e
        | .ok _ => none

/-- `Session::new` from `session.rs`: create the handle in the role's mode,
then `set_config`, `enable_quic`, `set_quic_transport_parameters`,
`set_blinding(SELF_SERVICE_BLINDING)`, each propagating the engine's error
via `?`.  Returns the result together with the trace of calls made on the
handle. -/
def Session.new (endpoint : EndpointType) (config : Nat) (params : List Nat)
    (config_resolver : Option Nat) (setup : ConnSetup) :
    Except S2nError Session × List SetupEvent :=
  let mode := S2nMode.ofEndpoint endpoint
  let conn := Connection.new mode
  match setup.setConfigResult with
  | .error e => (.error e, [.create mode, .setConfig])
  | .ok _ =>
    let conn := { conn with config := some config }
    match setup.enableQuicResult with
    | .error e => (.error e, [.create mode, .setConfig, .enableQuic])
    | .ok _ =>
      let conn := { conn with quicEnabled := true }
      match setup.setParamsResult with
      | .error e => (.error e, [.create mode, .setConfig, .enableQuic, .setParams])
      | .ok _ =>
        let conn := { conn with transportParams := some params }
        match setup.setBlindingResult with
        | .error e =>
          (.error e,
           [.create mode, .setConfig, .enableQuic, .setParams,
            .setBlinding .SELF_SERVICE_BLINDING])
        | .ok _ =>
          let conn := { conn with blinding := some Blinding.SELF_SERVICE_BLINDING }
          (.ok { endpoint := endpoint, connection := conn, state := (),
                 handshake_complete := false, send_buffer := [],
                 config_resolver := config_resolver },
           [.create mode, .setConfig, .enableQuic, .setParams,
            .setBlinding .SELF_SERVICE_BLINDING])

/-- The external collaborators' behaviour during one poll: the outcome of the
engine's `negotiate()`, the outbound handshake bytes the engine pushes into
`send_buffer` through the attached callbacks while negotiating, and the
outcome of the callback adapter's `unset` (detach). -/
structure EngineStep where
  negotiateResult : HsPoll (Except S2nError Unit)
  bytesOut : List Nat
  unsetResult : Except S2nError Unit
deriving DecidableEq

/-- The polling context's behaviour during one poll: the outcome of
`on_handshake_complete`, should it be invoked. -/
structure CtxStep where
  onHandshakeCompleteResult : Except TransportError Unit
deriving DecidableEq

/-- One call made into the connection handle during `Session::poll`. -/
inductive CallEvent
  | set
  | negotiate
  | unset
deriving DecidableEq

/-- Everything one `Session::poll` call produces: its return value, the
updated session, the trace of calls on the connection handle, and whether
`on_handshake_complete` was invoked on the context. -/
structure PollOutcome where
  result : HsPoll (Except TransportError Unit)
  session : Session
  trace : List CallEvent
  notified : Bool
deriving DecidableEq

/-- The alert-to-error translation of `Session::poll`:
`e.alert().map(CryptoError::new).unwrap_or(CryptoError::HANDSHAKE_FAILURE)`. -/
def alertToCryptoError (alert : Option Nat) : CryptoError :=
  (alert.map CryptoError.new).getD CryptoError.HANDSHAKE_FAILURE

/-- `Session::poll` from `session.rs`.  It builds a fresh callback adapter,
attaches it (`callback.set`), runs `negotiate()` (during which the engine may
push bytes into `send_buffer`), detaches (`callback.unset`, whose error is
propagated by `?` even though negotiate already finished), then interprets
the negotiate result: on success it invokes `on_handshake_complete` once
(guarded by `handshake_complete`), on failure it translates the alert, and on
pending it returns pending. -/
def Session.poll (s : Session) (eng : EngineStep) (ctx : CtxStep) : PollOutcome :=
  let trace := [CallEvent.set, CallEvent.negotiate, CallEvent.unset]
  let s1 := { s with send_buffer := s.send_buffer ++ eng.bytesOut }
  match eng.unsetResult with
  | .error e =>
    { result := .ready (.error (.s2n e)), session := s1, trace := trace,
      notified := false }
  | .ok _ =>
    match eng.negotiateResult with
    | .ready (.ok _) =>
      if s1.handshake_complete then
        { result := .ready (.ok ()), session := s1, trace := trace,
          notified := false }
      else
        match ctx.onHandshakeCompleteResult with
        | .ok _ =>
          { result := .ready (.ok ()),
            session := { s1 with handshake_complete := true },
            trace := trace, notified := true }
        | .error err =>
          { result := .ready (.error err), session := s1, trace := trace,
            notified := true }
    | .ready (.error e) =>
      { result := .ready (.error (.crypto (alertToCryptoError e.alert))),
        session := s1, trace := trace, notified := false }
    | .pending =>
      { result := .pending, session := s1, trace := trace, notified := false }

/-- One poll call's worth of collaborator behaviour. -/
structure PollStep where
  eng : EngineStep
  ctx : CtxStep
deriving DecidableEq

/-- A sequence of poll calls on a session, threading the session state. -/
def Session.pollSeq (s : Session) : List PollStep → List PollOutcome
  | [] => []
  | st :: rest =>
    let o := s.poll st.eng st.ctx
    o :: o.session.pollSeq rest

/-- How many polls of a sequence invoked `on_handshake_complete`. -/
def notifyCount (os : List PollOutcome) : Nat :=
  (os.filter (·.notified)).length

/-- The abstract crypto-suite association: nine key types, one per key role
(the `CryptoSuite` trait of s2n-quic-core, modelled from the spec's
key-role mapping since the trait is not under `src/`). -/
structure CryptoSuite where
  HandshakeKey : Type
  HandshakeHeaderKey : Type
  InitialKey : Type
  InitialHeaderKey : Type
  OneRttKey : Type
  OneRttHeaderKey : Type
  ZeroRttKey : Type
  ZeroRttHeaderKey : Type
  RetryKey : Type

/-- The `impl CryptoSuite for Session` block: every associated key type is
read off the single chosen suite `R` (in the source, `RingCryptoSuite`):
`type X = <RingCryptoSuite as CryptoSuite>::X` for each of the nine roles. -/
def Session.cryptoSuite (R : CryptoSuite) : CryptoSuite :=
  { HandshakeKey := R.HandshakeKey
    HandshakeHeaderKey := R.HandshakeHeaderKey
    InitialKey := R.InitialKey
    InitialHeaderKey := R.InitialHeaderKey
    OneRttKey := R.OneRttKey
    OneRttHeaderKey := R.OneRttHeaderKey
    ZeroRttKey := R.ZeroRttKey
    ZeroRttHeaderKey := R.ZeroRttHeaderKey
    RetryKey := R.RetryKey }

/-! ## Concrete example values shared by witnesses and counterexamples -/

/-- A freshly constructed client session (handshake not yet complete). -/
def exSession : Session :=
  { endpoint := .Client, connection := Connection.new .CLIENT, state := (),
    handshake_complete := false, send_buffer := [], config_resolver := none }

/-- An engine behaviour: negotiate succeeds, detach succeeds. -/
def exEngOk : EngineStep :=
  { negotiateResult := .ready (.ok ()), bytesOut := [], unsetResult := .ok () }

/-- An engine behaviour: negotiate still pending, detach succeeds. -/
def exEngPending : EngineStep :=
  { negotiateResult := .pending, bytesOut := [], unsetResult := .ok () }

/-- An engine behaviour: negotiate fails with alert code 40, detach
succeeds. -/
def exEngAlert40 : EngineStep :=
  { negotiateResult := .ready (.error { id := 1, alert := some 40 }),
    bytesOut := [], unsetResult := .ok () }

/-- An engine behaviour: negotiate succeeds but detach fails. -/
def exEngUnsetErr : EngineStep :=
  { negotiateResult := .ready (.ok ()), bytesOut := [],
    unsetResult := .error { id := 9, alert := none } }

/-- A context whose handshake-complete notification succeeds. -/
def exCtxOk : CtxStep := { onHandshakeCompleteResult := .ok () }

/-- A context whose handshake-complete notification fails. -/
def exCtxErr : CtxStep := { onHandshakeCompleteResult := .error (.generic 7) }

/-- A poll step: good engine, good context. -/
def exStepGood : PollStep := { eng := exEngOk, ctx := exCtxOk }

/-- A poll step: good engine, but the notification fails. -/
def exStepNotifyErr : PollStep := { eng := exEngOk, ctx := exCtxErr }

/-! ## Claim theorems -/

/-- Claim C2: every poll call makes exactly the calls attach (`set`), then
one `negotiate`, then detach (`unset`), in that strict order, on every exit
path (success, failure or pending) and with no second attach before the
detach: the call trace is exactly `[set, negotiate, unset]`. -/
theorem c2_attach_negotiate_detach_order (s : Session) (eng : EngineStep)
    (ctx : CtxStep) :
    (s.poll eng ctx).trace = [CallEvent.set, CallEvent.negotiate, CallEvent.unset] := by
  obtain ⟨neg, bytes, uns⟩ := eng
  obtain ⟨chc⟩ := ctx
  obtain ⟨ep, conn, st, hc, sb, cr⟩ := s
  cases uns with
  | error e => rfl
  | ok u =>
    cases neg with
    | pending => rfl
    | ready r =>
      cases r with
      | error e => rfl
      | ok u2 =>
        cases hc with
        | true =>
          cases chc <;> rfl
        | false =>
          cases chc <;> rfl

/-- Claim C3: if detaching the callback adapter fails, the poll returns that
detach error as a ready failure — even when negotiate succeeded — never a
success result, never invokes the handshake-complete notification, and
leaves `handshake_complete` unchanged. -/
theorem c3_detach_error_is_fatal (s : Session) (eng : EngineStep)
    (ctx : CtxStep) (e : S2nError) (h : eng.unsetResult = .error e) :
    (s.poll eng ctx).result = .ready (.error (.s2n e)) ∧
    (s.poll eng ctx).notified = false ∧
    (s.poll eng ctx).session.handshake_complete = s.handshake_complete := by
  obtain ⟨neg, bytes, uns⟩ := eng
  simp only at h
  subst h
  exact ⟨rfl, rfl, rfl⟩

/-- Witness for C3: a successful negotiate followed by a failing detach
yields the detach error, not success, with no notification. -/
theorem c3_witness :
    (exSession.poll exEngUnsetErr exCtxOk).result =
      .ready (.error (.s2n { id := 9, alert := none })) ∧
    (exSession.poll exEngUnsetErr exCtxOk).notified = false ∧
    (exSession.poll exEngUnsetErr exCtxOk).session.handshake_complete =
      exSession.handshake_complete :=
  c3_detach_error_is_fatal exSession exEngUnsetErr exCtxOk
    { id := 9, alert := none } (by decide)

/-- Claim C4: alert translation is the pure total function
`alertToCryptoError`: when negotiate fails (and detach succeeds) the poll
returns the crypto error built from the engine's alert, wrapped into the
transport error type; an alert code `a` maps to `CryptoError.new a`, and an
absent alert maps to the fixed generic `HANDSHAKE_FAILURE` error.
Determinism holds because `alertToCryptoError` is a function of the optional
alert code alone. -/
theorem c4_alert_translation (s : Session) (eng : EngineStep) (ctx : CtxStep)
    (e : S2nError) (hu : eng.unsetResult = .ok ())
    (hn : eng.negotiateResult = .ready (.error e)) :
    (s.poll eng ctx).result =
      .ready (.error (.crypto (alertToCryptoError e.alert))) ∧
    (∀ a, e.alert = some a → alertToCryptoError e.alert = CryptoError.new a) ∧
    (e.alert = none →
      alertToCryptoError e.alert = CryptoError.HANDSHAKE_FAILURE) := by
  obtain ⟨neg, bytes, uns⟩ := eng
  simp only at hu hn
  subst hu
  subst hn
  refine ⟨rfl, ?_, ?_⟩
  · intro a ha
    rw [ha]
    rfl
  · intro ha
    rw [ha]
    rfl

/-- Witness for C4: a negotiate failure with alert 40 yields the crypto
error with code 40 wrapped as a transport error. -/
theorem c4_witness :
    (exSession.poll exEngAlert40 exCtxOk).result =
      .ready (.error (.crypto (alertToCryptoError (some 40)))) :=
  (c4_alert_translation exSession exEngAlert40 exCtxOk
    { id := 1, alert := some 40 } (by decide) (by decide)).1

/-- Claim C7: when negotiate reports pending (and detach succeeds), the poll
returns pending, does not invoke the handshake-complete notification, and
leaves `handshake_complete` and the endpoint role unchanged. -/
theorem c7_pending_leaves_state (s : Session) (eng : EngineStep)
    (ctx : CtxStep) (hu : eng.unsetResult = .ok ())
    (hp : eng.negotiateResult = .pending) :
    (s.poll eng ctx).result = .pending ∧
    (s.poll eng ctx).notified = false ∧
    (s.poll eng ctx).session.handshake_complete = s.handshake_complete ∧
    (s.poll eng ctx).session.endpoint = s.endpoint := by
  obtain ⟨neg, bytes, uns⟩ := eng
  simp only at hu hp
  subst hu
  subst hp
  exact ⟨rfl, rfl, rfl, rfl⟩

/-- Witness for C7: a pending negotiate on the fresh session returns pending
with nothing changed. -/
theorem c7_witness :
    (exSession.poll exEngPending exCtxOk).result = .pending ∧
    (exSession.poll exEngPending exCtxOk).notified = false ∧
    (exSession.poll exEngPending exCtxOk).session.handshake_complete =
      exSession.handshake_complete ∧
    (exSession.poll exEngPending exCtxOk).session.endpoint =
      exSession.endpoint :=
  c7_pending_leaves_state exSession exEngPending exCtxOk (by decide) (by decide)

/-- Claim C8: if the first successful poll's `on_handshake_complete` itself
fails, the poll returns that error as a ready failure and
`handshake_complete` stays false, so any subsequent poll whose negotiate and
detach succeed invokes the notification again. -/
theorem c8_notification_error_retries (s : Session) (eng : EngineStep)
    (ctx : CtxStep) (err : TransportError) (h0 : s.handshake_complete = false)
    (hu : eng.unsetResult = .ok ())
    (hn : eng.negotiateResult = .ready (.ok ()))
    (hc : ctx.onHandshakeCompleteResult = .error err) :
    (s.poll eng ctx).result = .ready (.error err) ∧
    (s.poll eng ctx).notified = true ∧
    (s.poll eng ctx).session.handshake_complete = false ∧
    (∀ eng2 ctx2, eng2.unsetResult = .ok () →
      eng2.negotiateResult = .ready (.ok ()) →
      ((s.poll eng ctx).session.poll eng2 ctx2).notified = true) := by
  obtain ⟨neg, bytes, uns⟩ := eng
  obtain ⟨chc⟩ := ctx
  simp only at hu hn hc
  subst hu; subst hn; subst hc
  obtain ⟨ep, conn, st, hcomp, sb, cr⟩ := s
  simp only at h0
  subst h0
  refine ⟨rfl, rfl, rfl, ?_⟩
  intro eng2 ctx2 hu2 hn2
  obtain ⟨neg2, bytes2, uns2⟩ := eng2
  obtain ⟨chc2⟩ := ctx2
  simp only at hu2 hn2
  subst hu2; subst hn2
  cases chc2 <;> rfl

/-- Witness for C8: with a failing notification the poll reports the error
and leaves the flag false; a following good poll notifies again. -/
theorem c8_witness :
    (exSession.poll exEngOk exCtxErr).result = .ready (.error (.generic 7)) ∧
    (exSession.poll exEngOk exCtxErr).notified = true ∧
    (exSession.poll exEngOk exCtxErr).session.handshake_complete = false ∧
    ((exSession.poll exEngOk exCtxErr).session.poll exEngOk exCtxOk).notified
      = true := by
  have h := c8_notification_error_retries exSession exEngOk exCtxErr
    (.generic 7) (by decide) (by decide) (by decide) (by decide)
  exact ⟨h.1, h.2.1, h.2.2.1, h.2.2.2 exEngOk exCtxOk (by decide) (by decide)⟩

/-- Claim C9: the poll result, trace and notification are independent of the
`config_resolver` field, and the post-state differs only in carrying its own
resolver along: the deferred configuration-resolution hook is never
consulted. -/
theorem c9_config_resolver_independent (s : Session) (r r2 : Option Nat)
    (eng : EngineStep) (ctx : CtxStep) :
    (({ s with config_resolver := r } : Session).poll eng ctx).result =
      (({ s with config_resolver := r2 } : Session).poll eng ctx).result ∧
    (({ s with config_resolver := r } : Session).poll eng ctx).trace =
      (({ s with config_resolver := r2 } : Session).poll eng ctx).trace ∧
    (({ s with config_resolver := r } : Session).poll eng ctx).notified =
      (({ s with config_resolver := r2 } : Session).poll eng ctx).notified ∧
    (({ s with config_resolver := r } : Session).poll eng ctx).session =
      { (({ s with config_resolver := r2 } : Session).poll eng ctx).session
          with config_resolver := r } := by
  obtain ⟨neg, bytes, uns⟩ := eng
  obtain ⟨chc⟩ := ctx
  obtain ⟨ep, conn, st, hcomp, sb, cr⟩ := s
  cases uns with
  | error e => exact ⟨rfl, rfl, rfl, rfl⟩
  | ok u =>
    cases neg with
    | pending => exact ⟨rfl, rfl, rfl, rfl⟩
    | ready res =>
      cases res with
      | error e => exact ⟨rfl, rfl, rfl, rfl⟩
      | ok u2 =>
        cases hcomp with
        | true => exact ⟨rfl, rfl, rfl, rfl⟩
        | false => cases chc <;> exact ⟨rfl, rfl, rfl, rfl⟩

/-- Claim C10: every one of the nine key types of the Session's crypto-suite
association is drawn from the single chosen suite `R` (the Ring suite in the
source), so no key role's type can come from a different suite than the
others. -/
theorem c10_key_types_from_single_suite (R : CryptoSuite) :
    (Session.cryptoSuite R).InitialKey = R.InitialKey ∧
    (Session.cryptoSuite R).InitialHeaderKey = R.InitialHeaderKey ∧
    (Session.cryptoSuite R).HandshakeKey = R.HandshakeKey ∧
    (Session.cryptoSuite R).HandshakeHeaderKey = R.HandshakeHeaderKey ∧
    (Session.cryptoSuite R).ZeroRttKey = R.ZeroRttKey ∧
    (Session.cryptoSuite R).ZeroRttHeaderKey = R.ZeroRttHeaderKey ∧
    (Session.cryptoSuite R).OneRttKey = R.OneRttKey ∧
    (Session.cryptoSuite R).OneRttHeaderKey = R.OneRttHeaderKey ∧
    (Session.cryptoSuite R).RetryKey = R.RetryKey :=
  ⟨rfl, rfl, rfl, rfl, rfl, rfl, rfl, rfl, rfl⟩

/-- Counterexample to C6 as stated: when the notification itself fails, it
is emitted (invoked) although the flag does not transition from false to
true during that poll, so "emitted iff the flag transitions" is false. -/
theorem c6_counterexample :
    exSession.handshake_complete = false ∧
    (exSession.poll exEngOk exCtxErr).notified = true ∧
    (exSession.poll exEngOk exCtxErr).session.handshake_complete = false := by
  decide

/-- Claim C6 (amended): `handshake_complete` is monotone — its only
transition is from false to true, it is never reset — and the notification
is emitted *and returns success* if and only if the flag transitions from
false to true during that poll. -/
theorem c6_flag_monotone_notification (s : Session) (eng : EngineStep)
    (ctx : CtxStep) :
    (s.handshake_complete = true →
      (s.poll eng ctx).session.handshake_complete = true) ∧
    ((s.handshake_complete = false ∧
        (s.poll eng ctx).session.handshake_complete = true) ↔
      ((s.poll eng ctx).notified = true ∧
        ctx.onHandshakeCompleteResult = .ok ())) := by
  obtain ⟨neg, bytes, uns⟩ := eng
  obtain ⟨chc⟩ := ctx
  obtain ⟨ep, conn, st, hcomp, sb, cr⟩ := s
  cases uns with
  | error e => cases hcomp <;> simp [Session.poll]
  | ok u =>
    cases neg with
    | pending => cases hcomp <;> simp [Session.poll]
    | ready res =>
      cases res with
      | error e => cases hcomp <;> simp [Session.poll]
      | ok u2 =>
        cases hcomp with
        | true => cases chc <;> simp [Session.poll]
        | false => cases chc <;> simp [Session.poll]

/-- Witness for C6 (amended): a successful first poll transitions the flag,
which the theorem's iff converts into the successful notification. -/
theorem c6_witness :
    (exSession.poll exEngOk exCtxOk).session.handshake_complete = true :=
  (((c6_flag_monotone_notification exSession exEngOk exCtxOk).2).mpr
    ⟨by decide, by decide⟩).2

/-! ## Helper lemmas about poll sequences -/

theorem notifyCount_cons (o : PollOutcome) (os : List PollOutcome) :
    notifyCount (o :: os) =
      (if o.notified = true then 1 else 0) + notifyCount os := by
  cases h : o.notified <;>
    simp [notifyCount, List.filter_cons, h, Nat.add_comm]

theorem poll_of_complete (s : Session) (eng : EngineStep) (ctx : CtxStep)
    (h : s.handshake_complete = true) :
    (s.poll eng ctx).notified = false ∧
    (s.poll eng ctx).session.handshake_complete = true := by
  obtain ⟨neg, bytes, uns⟩ := eng
  obtain ⟨chc⟩ := ctx
  obtain ⟨ep, conn, st, hcomp, sb, cr⟩ := s
  simp only at h
  subst h
  cases uns with
  | error e => exact ⟨rfl, rfl⟩
  | ok u =>
    cases neg with
    | pending => exact ⟨rfl, rfl⟩
    | ready res =>
      cases res with
      | error e => exact ⟨rfl, rfl⟩
      | ok u2 => exact ⟨rfl, rfl⟩

theorem pollSeq_no_notify_of_complete (s : Session) (steps : List PollStep)
    (h : s.handshake_complete = true) :
    notifyCount (s.pollSeq steps) = 0 := by
  induction steps generalizing s with
  | nil => rfl
  | cons st rest ih =>
    have hp := poll_of_complete s st.eng st.ctx h
    rw [Session.pollSeq, notifyCount_cons, hp.1]
    simp [ih _ hp.2]

theorem poll_success_fresh (s : Session) (eng : EngineStep) (ctx : CtxStep)
    (h0 : s.handshake_complete = false) (hu : eng.unsetResult = .ok ())
    (hn : eng.negotiateResult = .ready (.ok ()))
    (hc : ctx.onHandshakeCompleteResult = .ok ()) :
    (s.poll eng ctx).notified = true ∧
    (s.poll eng ctx).session.handshake_complete = true := by
  obtain ⟨neg, bytes, uns⟩ := eng
  obtain ⟨chc⟩ := ctx
  obtain ⟨ep, conn, st, hcomp, sb, cr⟩ := s
  simp only at h0 hu hn hc
  subst h0; subst hu; subst hn; subst hc
  exact ⟨rfl, rfl⟩

theorem poll_nonsuccess_fresh (s : Session) (eng : EngineStep) (ctx : CtxStep)
    (h0 : s.handshake_complete = false) (hu : eng.unsetResult = .ok ())
    (hn : eng.negotiateResult ≠ .ready (.ok ())) :
    (s.poll eng ctx).notified = false ∧
    (s.poll eng ctx).session.handshake_complete = false := by
  obtain ⟨neg, bytes, uns⟩ := eng
  obtain ⟨chc⟩ := ctx
  obtain ⟨ep, conn, st, hcomp, sb, cr⟩ := s
  simp only at h0 hu hn
  subst h0; subst hu
  cases neg with
  | pending => exact ⟨rfl, rfl⟩
  | ready res =>
    cases res with
    | error e => exact ⟨rfl, rfl⟩
    | ok u2 => exact absurd rfl (by cases u2; exact hn)

/-- Counterexample to C1 as stated: a fresh session polled twice, where the
first poll's negotiate succeeds but its handshake-complete notification
fails, invokes the notification twice across the sequence, although some
call's negotiate step reported success — the notification is not invoked
exactly once. -/
theorem c1_counterexample :
    exSession.handshake_complete = false ∧
    exStepNotifyErr.eng.negotiateResult = .ready (.ok ()) ∧
    notifyCount (exSession.pollSeq [exStepNotifyErr, exStepGood]) = 2 := by
  decide

/-- Claim C1 (amended): for every session with `handshake_complete` still
false and every sequence of polls in which each detach succeeds and each
invoked handshake-complete notification succeeds, if some poll's negotiate
step reports success then the notification is invoked exactly once across
the whole sequence. -/
theorem c1_notify_exactly_once (s : Session) (steps : List PollStep)
    (h0 : s.handshake_complete = false)
    (hgood : ∀ st ∈ steps, st.eng.unsetResult = .ok () ∧
      st.ctx.onHandshakeCompleteResult = .ok ())
    (hsucc : ∃ st ∈ steps, st.eng.negotiateResult = .ready (.ok ())) :
    notifyCount (s.pollSeq steps) = 1 := by
  induction steps generalizing s with
  | nil => simp at hsucc
  | cons st rest ih =>
    have hg := hgood st (List.mem_cons_self st rest)
    by_cases hn : st.eng.negotiateResult = .ready (.ok ())
    · have hp := poll_success_fresh s st.eng st.ctx h0 hg.1 hn hg.2
      rw [Session.pollSeq, notifyCount_cons, hp.1]
      rw [pollSeq_no_notify_of_complete _ rest hp.2]
      rfl
    · have hp := poll_nonsuccess_fresh s st.eng st.ctx h0 hg.1 hn
      rw [Session.pollSeq, notifyCount_cons, hp.1]
      simp only [if_neg (by simp : ¬ (false = true)), Nat.zero_add]
      refine ih _ hp.2 (fun st2 h2 => hgood st2 (List.mem_cons_of_mem st h2)) ?_
      obtain ⟨st2, hmem, hs2⟩ := hsucc
      rcases List.mem_cons.mp hmem with h | h
      · exact absurd (h ▸ hs2) hn
      · exact ⟨st2, h, hs2⟩

/-- Witness for C1 (amended): one good successful poll on a fresh session
notifies exactly once. -/
theorem c1_witness : notifyCount (exSession.pollSeq [exStepGood]) = 1 :=
  c1_notify_exactly_once exSession [exStepGood] (by decide) (by decide)
    ⟨exStepGood, by decide, by decide⟩

/-- A setup in which the engine accepts every construction step. -/
def exSetupOk : ConnSetup :=
  { setConfigResult := .ok (), enableQuicResult := .ok (),
    setParamsResult := .ok (), setBlindingResult := .ok () }

/-- Claim C5: construction creates the handle in the mode matching the role
(Server yields SERVER, Client yields CLIENT, and creation is the first call
made), then binds the configuration, enables QUIC mode, injects the
transport parameters and sets self-service blinding, in that order; if any
step is rejected the first rejection's error is returned and no Session is
produced, and otherwise the result is a Session with `handshake_complete`
false and an empty send buffer whose connection carries everything that was
installed. -/
theorem c5_construction (endpoint : EndpointType) (config : Nat)
    (params : List Nat) (r : Option Nat) (setup : ConnSetup) :
    (S2nMode.ofEndpoint .Server = .SERVER ∧
      S2nMode.ofEndpoint .Client = .CLIENT) ∧
    (Session.new endpoint config params r setup).2.head? =
      some (.create (S2nMode.ofEndpoint endpoint)) ∧
    (setup.firstError = none →
      (Session.new endpoint config params r setup).1 =
        .ok { endpoint := endpoint,
              connection := { mode := S2nMode.ofEndpoint endpoint,
                              config := some config, quicEnabled := true,
                              transportParams := some params,
                              blinding := some .SELF_SERVICE_BLINDING },
              state := (), handshake_complete := false, send_buffer := [],
              config_resolver := r } ∧
      (Session.new endpoint config params r setup).2 =
        [.create (S2nMode.ofEndpoint endpoint), .setConfig, .enableQuic,
         .setParams, .setBlinding .SELF_SERVICE_BLINDING]) ∧
    (∀ e, setup.firstError = some e →
      (Session.new endpoint config params r setup).1 = .error e) := by
  obtain ⟨sc, enq, sp, sbl⟩ := setup
  refine ⟨⟨rfl, rfl⟩, ?_, ?_, ?_⟩
  · cases sc <;> cases enq <;> cases sp <;> cases sbl <;> rfl
  · intro hnone
    cases sc <;> cases enq <;> cases sp <;> cases sbl <;>
      simp_all [ConnSetup.firstError, Session.new, Connection.new]
  · intro e he
    cases sc <;> cases enq <;> cases sp <;> cases sbl <;>
      simp_all [ConnSetup.firstError, Session.new, Connection.new]

/-- Witness for C5: a Server-role construction with params `[1, 2]` and an
engine accepting every step yields the fully configured Session. -/
theorem c5_witness :
    (Session.new .Server 5 [1, 2] none exSetupOk).1 =
      .ok { endpoint := .Server,
            connection := { mode := .SERVER, config := some 5,
                            quicEnabled := true,
                            transportParams := some [1, 2],
                            blinding := some .SELF_SERVICE_BLINDING },
            state := (), handshake_complete := false, send_buffer := [],
            config_resolver := none } :=
  ((c5_construction .Server 5 [1, 2] none exSetupOk).2.2.1 (by decide)).1
